import Mathlib

/-!
Verification of the SmartForm formwork-set sizing core
(`smartform_ai/optimization_engine.py`, `procurement_scheduler.py`,
`repetition_engine.py`) against its specification.

The embedding is shallow: daily pour counts are `List Nat`, calendar dates
are `Int` day numbers, currency amounts are `ℚ`, pandas dataframes appear
only through the concrete columns the core reads, and the PuLP integer
program is modelled by its mathematical optimum (`Nat.find` of the least
feasible value) together with an explicit outcome tag for the three ways
`prob.solve` can end (optimal status, non-optimal status, raised
exception), mirroring lines 73-97 of `optimization_engine.py`.
-/

namespace SmartForm

/-- Sum of pours in the trailing window of one day, from
`optimization_engine.py` lines 79-80: `window_start = max(0, i - R + 1)`
and `sum(pours_array[window_start : i + 1])`.  Natural subtraction
realises the `max(0, ·)` clamp. -/
def windowSum (pours : List Nat) (R i : Nat) : Nat :=
  ((pours.drop (i + 1 - R)).take (i + 1 - (i + 1 - R))).sum

/-- The list of all trailing-window sums, one per day `i < pours.length`
(the constraint right-hand sides of lines 78-81). -/
def windowSums (pours : List Nat) (R : Nat) : List Nat :=
  (List.range pours.length).map (fun i => windowSum pours R i)

/-- Maximum trailing-window sum over all days (0 for an empty horizon). -/
def slidingWindowMax (pours : List Nat) (R : Nat) : Nat :=
  (windowSums pours R).foldl max 0

/-- Lifetime lower bound of `optimization_engine.py` lines 67-70:
`ceil(total_pours / max_reuse_count)` when `max_reuse_count > 0`, else 0.
The sentinel `-1` (unlimited) therefore yields 0. -/
def lifeLimitLB (total : Nat) (K : Int) : Nat :=
  if 0 < K then (total + K.toNat - 1) / K.toNat else 0

/-- Feasibility of a value `z` for the integer program of lines 74-86:
`z` is at or above the variable's lower bound and satisfies every
per-day covering constraint `z ≥ windowSum i`. -/
def ilpFeasible (lb : Nat) (sums : List Nat) (z : Nat) : Prop :=
  lb ≤ z ∧ ∀ s ∈ sums, s ≤ z

instance instDecIlpFeasible (lb : Nat) (sums : List Nat) (z : Nat) :
    Decidable (ilpFeasible lb sums z) :=
  inferInstanceAs (Decidable (lb ≤ z ∧ ∀ s ∈ sums, s ≤ z))

lemma init_le_foldl_max (l : List Nat) (b : Nat) : b ≤ l.foldl max b := by
  induction l generalizing b with
  | nil => exact le_refl b
  | cons x t ih => exact le_trans (le_max_left b x) (ih (max b x))

lemma mem_le_foldl_max (l : List Nat) (b s : Nat) (hs : s ∈ l) :
    s ≤ l.foldl max b := by
  induction l generalizing b with
  | nil => cases hs
  | cons x t ih =>
    simp only [List.foldl_cons]
    rcases List.mem_cons.mp hs with h | h
    · subst h
      exact le_trans (le_max_right b s) (init_le_foldl_max t (max b s))
    · exact ih (max b x) h

lemma foldl_max_le (l : List Nat) (b z : Nat) (hb : b ≤ z)
    (h : ∀ s ∈ l, s ≤ z) : l.foldl max b ≤ z := by
  induction l generalizing b with
  | nil => exact hb
  | cons x t ih =>
    exact ih (max b x) (max_le hb (h x (List.mem_cons_self x t)))
      (fun s hs => h s (List.mem_cons_of_mem x hs))

lemma foldl_max_init (l : List Nat) (a b : Nat) :
    l.foldl max (max a b) = max a (l.foldl max b) := by
  induction l generalizing b with
  | nil => rfl
  | cons x t ih =>
    simp only [List.foldl_cons]
    rw [max_assoc, ih]

lemma ilpFeasible_exists (lb : Nat) (sums : List Nat) :
    ∃ z, ilpFeasible lb sums z :=
  ⟨sums.foldl max lb, init_le_foldl_max sums lb,
    fun s hs => mem_le_foldl_max sums lb s hs⟩

/-- The exact optimum of the integer program of lines 74-87: the least
integer satisfying all constraints.  This is the value the solver reports
when its status is `Optimal`. -/
def ilpOptimum (lb : Nat) (sums : List Nat) : Nat :=
  Nat.find (ilpFeasible_exists lb sums)

/-- The pure-Python fallback of lines 94-97: a linear scan starting from
the lifetime lower bound, folding `max` over the trailing-window sums. -/
def fallbackScan (lb : Nat) (pours : List Nat) (R : Nat) : Nat :=
  (List.range pours.length).foldl (fun m i => max m (windowSum pours R i)) lb

/-- How the `prob.solve` call of line 87 can end, as observed by lines
88-97: the solver returns status `Optimal` with the true optimum, returns
some other status, or raises an exception caught by line 92. -/
inductive SolverOutcome
  | optimal
  | nonOptimal
  | exc
deriving DecidableEq

/-- `Required_Sets` for one (cluster, zone) pair, lines 65-97:
on an `Optimal` status the solver value, on any other status the bare
lifetime lower bound (line 90), and on an exception the sliding-window
fallback (lines 92-97). -/
def requiredSets (o : SolverOutcome) (pours : List Nat) (R : Nat) (K : Int) : Nat :=
  match o with
  | .optimal => ilpOptimum (lifeLimitLB pours.sum K) (windowSums pours R)
  | .nonOptimal => lifeLimitLB pours.sum K
  | .exc => fallbackScan (lifeLimitLB pours.sum K) pours R

lemma ilpOptimum_eq (lb : Nat) (sums : List Nat) :
    ilpOptimum lb sums = sums.foldl max lb := by
  refine (Nat.find_eq_iff (ilpFeasible_exists lb sums)).mpr ⟨?_, ?_⟩
  · exact ⟨init_le_foldl_max sums lb, fun s hs => mem_le_foldl_max sums lb s hs⟩
  · intro k hk hf
    exact absurd (foldl_max_le sums lb k hf.1 hf.2) (not_le.mpr hk)

lemma fallbackScan_eq (lb : Nat) (pours : List Nat) (R : Nat) :
    fallbackScan lb pours R = (windowSums pours R).foldl max lb := by
  unfold fallbackScan windowSums
  rw [List.foldl_map]

lemma requiredSets_optimal_eq (pours : List Nat) (R : Nat) (K : Int) :
    requiredSets .optimal pours R K
      = max (slidingWindowMax pours R) (lifeLimitLB pours.sum K) := by
  show ilpOptimum (lifeLimitLB pours.sum K) (windowSums pours R)
      = max (slidingWindowMax pours R) (lifeLimitLB pours.sum K)
  unfold slidingWindowMax
  rw [ilpOptimum_eq]
  have h := foldl_max_init (windowSums pours R) (lifeLimitLB pours.sum K) 0
  rw [max_eq_left (Nat.zero_le _)] at h
  rw [h, max_comm]

/-- One row of the optimizer's output table, `optimization_engine.py`
lines 118-131. -/
structure OptResult where
  requiredSetsField : Nat
  naiveSets : Nat
  optCost : ℚ
  naiveCost : ℚ
  costSavings : ℚ
  costReductionPct : ℚ
  setsWrittenOff : Nat
  writeOffCost : ℚ
  trueTotalCost : ℚ
deriving DecidableEq

/-- Construction of one output row for a (cluster, zone) pair with demand
series `pours`, following `optimization_engine.py` lines 63-131:
`total_pours` (line 63), the solve with its three outcomes (lines 65-97),
`naive_sets = total_pours` (line 99), the write-off accounting of lines
106-113 (`math.floor(total / K)` is natural division), the cost lines
115-116 and the row literal of lines 118-131.  `costPerSet` and
`replCost` are the per-set costs read from the pair's first element row
(lines 102-112). -/
def mkOptResult (pours : List Nat) (R : Nat) (K : Int)
    (costPerSet replCost : ℚ) (o : SolverOutcome) : OptResult :=
  let total := pours.sum
  let optSets := requiredSets o pours R K
  let naive := total
  let swo := if 0 < K then total / K.toNat else 0
  let woc := (swo : ℚ) * replCost
  let optCost := (optSets : ℚ) * costPerSet
  let naiveCost := (naive : ℚ) * costPerSet
  { requiredSetsField := optSets
    naiveSets := naive
    optCost := optCost
    naiveCost := naiveCost
    costSavings := naiveCost - optCost
    costReductionPct :=
      if 0 < naiveCost then (naiveCost - optCost) / naiveCost * 100 else 0
    setsWrittenOff := swo
    writeOffCost := woc
    trueTotalCost := optCost + woc }

/-- Maximum single-day pour count of a series (used by the spec's claim
about `reuse_cycle_days = 0`). -/
def maxSingleDay (pours : List Nat) : Nat :=
  pours.foldl max 0

/-! ### Demand series construction (`optimization_engine.py` lines 43-63)

Dates are `Int` day numbers.  `dailyPours` models the
`groupby(...).size()` table of lines 44-48 restricted to one
(cluster, zone) pair: one `(date, count)` entry per distinct casting
date.  `dateRange` models `pd.date_range(min_date, max_date)` (line 56),
and `reindex` models `.reindex(all_dates, fill_value=0)` (lines 57-60):
each day of the range is looked up in the grouped table, defaulting
to 0. -/

/-- Smallest element of a date list (`group['Casting_Date'].min()`,
line 53); junk value 0 on the empty list, which cannot occur for a
groupby group. -/
def listMinInt (l : List Int) : Int :=
  match l with
  | [] => 0
  | h :: t => t.foldl min h

/-- Largest element of a date list (`group['Casting_Date'].max()`,
line 54). -/
def listMaxInt (l : List Int) : Int :=
  match l with
  | [] => 0
  | h :: t => t.foldl max h

/-- Per-date pour counts of one pair: one entry per distinct date
carrying the number of elements cast that day (lines 44-48). -/
def dailyPours (dates : List Int) : List (Int × Nat) :=
  dates.dedup.map (fun d => (d, dates.count d))

/-- The inclusive daily range `pd.date_range(lo, hi)` (line 56); empty
when `hi < lo`. -/
def dateRange (lo hi : Int) : List Int :=
  (List.range (hi - lo + 1).toNat).map (fun k : Nat => lo + (k : Int))

/-- `.reindex(all_dates, fill_value=0)` (lines 57-60): look each day up
in the grouped counts, defaulting missing days to 0. -/
def reindex (tbl : List (Int × Nat)) (ds : List Int) : List Nat :=
  ds.map (fun d => ((tbl.find? (fun p => p.1 == d)).map Prod.snd).getD 0)

/-- The dense demand series of one (cluster, zone) pair, lines 52-61. -/
def demandSeries (dates : List Int) : List Nat :=
  reindex (dailyPours dates) (dateRange (listMinInt dates) (listMaxInt dates))

/-! ### Procurement scheduler (`procurement_scheduler.py`) -/

/-- The three urgency labels of lines 68-73. -/
inductive ProcStatus
  | urgent
  | orderSoon
  | planned
deriving DecidableEq

/-- Status classification of lines 68-73: URGENT when the order is
overdue, ORDER SOON when it falls within one lead time, else PLANNED. -/
def procStatus (daysToOrder leadTime : Int) : ProcStatus :=
  if daysToOrder < 0 then .urgent
  else if daysToOrder ≤ leadTime then .orderSoon
  else .planned

/-- One row of the procurement schedule, lines 75-84.  Dates are `Int`
day numbers (the `strftime` formatting of lines 79-80 is presentation
only and preserves date order for calendar dates). -/
structure SchedRecord where
  cluster : String
  zone : String
  setsToOrder : Nat
  firstPour : Int
  orderBy : Int
  daysUntilOrder : Int
  estimatedCost : ℚ
  status : ProcStatus
deriving DecidableEq

/-- Builds one schedule row from a pair's first pour date, today's date
and the lead time, following lines 63-84. -/
def mkSchedRecord (cluster zone : String) (sets : Nat) (cost : ℚ)
    (firstPour today leadTime : Int) : SchedRecord :=
  let orderBy := firstPour - leadTime
  let daysToOrder := orderBy - today
  { cluster := cluster
    zone := zone
    setsToOrder := sets
    firstPour := firstPour
    orderBy := orderBy
    daysUntilOrder := daysToOrder
    estimatedCost := cost
    status := procStatus daysToOrder leadTime }

/-- One row of the optimization table as consumed by the scheduler
(lines 50-52, 78, 82). -/
structure OptRow where
  cluster : String
  zone : String
  requiredSetsField : Nat
  optCost : ℚ
deriving DecidableEq

/-- One element row as consumed by the scheduler: cluster id, resolved
`_zone` label (lines 44-45) and casting date. -/
structure Elem where
  cluster : String
  zone : String
  castDate : Int
deriving DecidableEq

/-- The mask of lines 55-57: cluster must match, and the zone must match
too unless the optimization row's zone is the no-splitting label
`"All"`. -/
def matchingElems (els : List Elem) (c z : String) : List Elem :=
  els.filter (fun e => e.cluster == c && (z == "All" || e.zone == z))

/-- The record-building loop of lines 50-84: each optimization row whose
matching element subset is empty is skipped (lines 60-61), every other
row yields a schedule record built from the subset's earliest casting
date (line 63). -/
def buildRecords (optRows : List OptRow) (els : List Elem)
    (today leadTime : Int) : List SchedRecord :=
  optRows.filterMap (fun r =>
    let sub := matchingElems els r.cluster r.zone
    if sub.isEmpty then none
    else some (mkSchedRecord r.cluster r.zone r.requiredSetsField r.optCost
      (listMinInt (sub.map Elem.castDate)) today leadTime))

/-- Sort rank of a status (the `status_order` map of line 89). -/
def statusRank : ProcStatus → Nat
  | .urgent => 0
  | .orderSoon => 1
  | .planned => 2

/-- Sort key comparison of line 91: by status severity first, then by
order-by date. -/
def schedLE (a b : SchedRecord) : Bool :=
  statusRank a.status < statusRank b.status ||
    (statusRank a.status == statusRank b.status && a.orderBy ≤ b.orderBy)

/-- Ordered insertion for the schedule sort. -/
def insertSched (a : SchedRecord) : List SchedRecord → List SchedRecord
  | [] => [a]
  | b :: t => if schedLE a b then a :: b :: t else b :: insertSched a t

/-- Stable sort by `schedLE`, modelling the `sort_values` of line 91. -/
def sortSched : List SchedRecord → List SchedRecord
  | [] => []
  | a :: t => insertSched a (sortSched t)

/-- The whole of `generate_procurement_schedule` after dataframe
normalisation, lines 47-93.  When no record was built, the column access
`df_schedule['Status']` on the empty frame of line 90 raises a
`KeyError`, modelled as `Except.error`; otherwise the records are
sorted and returned. -/
def generateSchedule (optRows : List OptRow) (els : List Elem)
    (today leadTime : Int) : Except String (List SchedRecord) :=
  let recs := buildRecords optRows els today leadTime
  if recs.isEmpty then Except.error "KeyError: Status"
  else Except.ok (sortSched recs)

/-! ### Mutation traces of the core entry points

Each core entry point receives a dataframe object and may mutate
dataframe objects in place (pandas column assignment).  To state the
frame property — the caller's input frame is untouched — we track the
dataframe objects in a heap (a list of frames addressed by index),
`copy` as allocation of a fresh cell, and in-place column assignment as
`List.set` on the owning cell.  The frame contents and the column
transforms themselves are irrelevant to the property, so the frame type
and the transforms are parameters; the traces record exactly which cells
each function allocates and writes. -/

/-- Dereference a heap cell. -/
def readH {α : Type} [Inhabited α] (hp : List α) (r : Nat) : α :=
  hp.getD r default

/-- Heap trace of `optimize_formwork_sets`, lines 32-39:
`df = df_elements.copy()` allocates a fresh cell, then the
`df['Casting_Date']` and `df['_zone']` assignments (lines 33, 37/39)
write to that cell; the remainder of the function only reads. -/
def optimizeTrace {α : Type} [Inhabited α] (toDt addZone : α → α)
    (hp : List α) (r : Nat) : List α :=
  let c := hp.length
  let hp1 := hp ++ [readH hp r]
  let hp2 := hp1.set c (toDt (readH hp1 c))
  hp2.set c (addZone (readH hp2 c))

/-- Heap trace of `detect_repetitions`, `repetition_engine.py` lines
8-23: copy the input (line 8), derive the grouped summary (line 12, a
fresh object), write the `Cluster_ID` column into the summary object
(line 18), and rebind `df` to the fresh frame returned by `merge`
(line 21). -/
def repetitionTrace {α : Type} [Inhabited α]
    (summarize assignIds : α → α) (mergeIds : α → α → α)
    (hp : List α) (r : Nat) : List α :=
  let c := hp.length
  let hp1 := hp ++ [readH hp r]
  let s := hp1.length
  let hp2 := hp1 ++ [summarize (readH hp1 c)]
  let hp3 := hp2.set s (assignIds (readH hp2 s))
  hp3 ++ [mergeIds (readH hp3 c) (readH hp3 s)]

/-- Heap trace of `generate_procurement_schedule`, lines 41-45: copy the
input (line 41), write `Casting_Date` (line 42) and, when the `_zone`
column is absent, write `_zone` (lines 44-45); the loop and the final
sort only read the copy and build fresh records. -/
def schedulerTrace {α : Type} [Inhabited α] (toDt addZone : α → α)
    (hasZone : Bool) (hp : List α) (r : Nat) : List α :=
  let c := hp.length
  let hp1 := hp ++ [readH hp r]
  let hp2 := hp1.set c (toDt (readH hp1 c))
  if hasZone then hp2 else hp2.set c (addZone (readH hp2 c))

/-! ### Supporting lemmas -/

lemma windowSum_le_sum (pours : List Nat) (R i : Nat) :
    windowSum pours R i ≤ pours.sum := by
  unfold windowSum
  exact List.Sublist.sum_le_sum
    ((List.take_sublist _ _).trans (List.drop_sublist _ _)) (by simp)

lemma mem_windowSums_le_sum (pours : List Nat) (R : Nat) (s : Nat)
    (hs : s ∈ windowSums pours R) : s ≤ pours.sum := by
  obtain ⟨i, _, rfl⟩ := List.mem_map.mp hs
  exact windowSum_le_sum pours R i

lemma lifeLimitLB_le (total : Nat) (K : Int) :
    lifeLimitLB total K ≤ total := by
  unfold lifeLimitLB
  split
  · next hK =>
    have hk : 0 < K.toNat := by omega
    rw [Nat.div_le_iff_le_mul_add_pred hk]
    have := Nat.le_mul_of_pos_left total hk
    omega
  · exact Nat.zero_le total

lemma windowSum_R_zero (pours : List Nat) (i : Nat) :
    windowSum pours 0 i = 0 := by
  simp [windowSum, Nat.sub_self]

lemma foldl_max_eq_init (l : List Nat) (b : Nat) (h : ∀ s ∈ l, s ≤ b) :
    l.foldl max b = b :=
  le_antisymm (foldl_max_le l b b (le_refl b) h) (init_le_foldl_max l b)

lemma find?_beq (l : List Int) (d : Int) :
    l.find? (fun x => x == d) = if d ∈ l then some d else none := by
  induction l with
  | nil => simp
  | cons h t ih =>
    by_cases hd : h = d
    · subst hd
      simp [List.find?_cons_of_pos]
    · rw [List.find?_cons_of_neg _ (by simp [hd]), ih]
      by_cases hm : d ∈ t
      · simp [hm]
      · have hnot : ¬ d ∈ h :: t := by
          rw [List.mem_cons]
          rintro (hh | hh)
          · exact hd hh.symm
          · exact hm hh
        simp [hm, hnot]

lemma find?_dailyPours (dates : List Int) (d : Int) :
    (dailyPours dates).find? (fun p => p.1 == d)
      = if d ∈ dates then some (d, dates.count d) else none := by
  unfold dailyPours
  rw [List.find?_map]
  have hcomp :
      ((fun p : Int × Nat => p.1 == d) ∘ fun x => (x, dates.count x))
        = fun x => x == d := rfl
  rw [hcomp, find?_beq]
  by_cases hm : d ∈ dates
  · simp [hm, List.mem_dedup]
  · simp [hm, List.mem_dedup]

lemma dateRange_length (lo hi : Int) :
    (dateRange lo hi).length = (hi - lo + 1).toNat := by
  rw [dateRange, List.length_map, List.length_range]

lemma dateRange_getElem (lo hi : Int) (j : Nat)
    (hj : j < (dateRange lo hi).length) :
    (dateRange lo hi)[j] = lo + j := by
  have hj2 : j < (hi - lo + 1).toNat := by
    rw [← dateRange_length lo hi]
    exact hj
  simp only [dateRange]
  rw [List.getElem_map, List.getElem_range]

lemma reindex_length (tbl : List (Int × Nat)) (ds : List Int) :
    (reindex tbl ds).length = ds.length := by
  rw [reindex, List.length_map]

lemma demandSeries_length (dates : List Int) :
    (demandSeries dates).length
      = (listMaxInt dates - listMinInt dates + 1).toNat := by
  rw [demandSeries, reindex_length, dateRange_length]

lemma demandSeries_entry (dates : List Int) (j : Nat)
    (hj : j < (demandSeries dates).length) :
    (demandSeries dates).getD j 0 = dates.count (listMinInt dates + j) := by
  have hjr : j < (dateRange (listMinInt dates) (listMaxInt dates)).length := by
    rw [dateRange_length]
    rw [demandSeries_length] at hj
    exact hj
  show (reindex (dailyPours dates)
      (dateRange (listMinInt dates) (listMaxInt dates))).getD j 0 = _
  rw [reindex, List.getD_eq_getElem?_getD, List.getElem?_map,
    List.getElem?_eq_getElem hjr, dateRange_getElem _ _ _ hjr]
  simp only [Option.map_some', Option.getD_some]
  rw [find?_dailyPours]
  by_cases hm : (listMinInt dates + j) ∈ dates
  · simp [hm]
  · simp [hm, List.count_eq_zero.mpr hm]

lemma demandSeries_singleton (d : Int) : demandSeries [d] = [1] := by
  have hl : (demandSeries [d]).length = 1 := by
    rw [demandSeries_length]
    show (listMaxInt [d] - listMinInt [d] + 1).toNat = 1
    have h1 : listMaxInt [d] = d := rfl
    have h2 : listMinInt [d] = d := rfl
    rw [h1, h2, sub_self]
    rfl
  obtain ⟨a, ha⟩ := List.length_eq_one.mp hl
  have he := demandSeries_entry [d] 0 (by rw [hl]; omega)
  have h2 : listMinInt [d] = d := rfl
  rw [ha] at he ⊢
  rw [h2] at he
  simp only [List.getD_cons_zero] at he
  rw [he]
  norm_num

lemma requiredSets_le_sum (o : SolverOutcome) (pours : List Nat) (R : Nat)
    (K : Int) : requiredSets o pours R K ≤ pours.sum := by
  cases o with
  | optimal =>
    rw [requiredSets_optimal_eq]
    exact max_le
      (foldl_max_le _ 0 _ (Nat.zero_le _) (mem_windowSums_le_sum pours R))
      (lifeLimitLB_le pours.sum K)
  | nonOptimal => exact lifeLimitLB_le pours.sum K
  | exc =>
    show fallbackScan (lifeLimitLB pours.sum K) pours R ≤ pours.sum
    rw [fallbackScan_eq]
    exact foldl_max_le _ _ _ (lifeLimitLB_le pours.sum K)
      (mem_windowSums_le_sum pours R)

lemma readH_set_ne {α : Type} [Inhabited α] (hp : List α) (c r : Nat)
    (v : α) (h : c ≠ r) : readH (hp.set c v) r = readH hp r := by
  unfold readH
  rw [List.getD_eq_getElem?_getD, List.getD_eq_getElem?_getD,
    List.getElem?_set_ne h]

lemma readH_append_left {α : Type} [Inhabited α] (hp l : List α) (r : Nat)
    (hr : r < hp.length) : readH (hp ++ l) r = readH hp r := by
  unfold readH
  rw [List.getD_eq_getElem?_getD, List.getD_eq_getElem?_getD,
    List.getElem?_append_left hr]

/-! ### The claims -/

/-- C1: for every (cluster, zone) pair with daily pour counts, reuse
cycle `R` and optional max reuse count `K`, the optimizer's
`Required_Sets` equals `max(slidingWindowMax, lifetimeLowerBound)`,
where the sliding-window maximum ranges over the right-inclusive
trailing windows of every day and the lifetime lower bound is
`ceil(total / K)` when `K` is set and 0 otherwise. -/
theorem c1_required_sets_formula (pours : List Nat) (R : Nat) (K : Int)
    (c rep : ℚ) :
    (mkOptResult pours R K c rep .optimal).requiredSetsField
      = max (slidingWindowMax pours R) (lifeLimitLB pours.sum K) := by
  show requiredSets .optimal pours R K = _
  exact requiredSets_optimal_eq pours R K

/-- C2 counterexample: a solve that terminates with a non-`Optimal`
status (a solver failure: this integer program is feasible and bounded,
so a correct solve ends `Optimal`) is answered with the bare lifetime
lower bound (`optimization_engine.py` line 90), not with the
sliding-window fallback — on `pours = [5]`, `R = 7`, unlimited reuse,
the failed solve yields 0 while the fallback yields 5, so the failure is
not recovered via the sliding-window computation. -/
theorem c2_counterexample :
    requiredSets .nonOptimal [5] 7 (-1) ≠ requiredSets .exc [5] 7 (-1) := by
  decide

/-- C2 amended: for every valid input the exact ILP optimum and the
sliding-window fallback coincide, and a solver exception is recovered
via the fallback without surfacing an error; but a solve that ends
without exception in a non-`Optimal` status is answered with the bare
lifetime lower bound instead of the sliding-window result. -/
theorem c2_ilp_equals_fallback (pours : List Nat) (R : Nat) (K : Int) :
    requiredSets .optimal pours R K = requiredSets .exc pours R K ∧
      requiredSets .nonOptimal pours R K = lifeLimitLB pours.sum K := by
  constructor
  · show ilpOptimum (lifeLimitLB pours.sum K) (windowSums pours R)
        = fallbackScan (lifeLimitLB pours.sum K) pours R
    rw [ilpOptimum_eq, fallbackScan_eq]
  · rfl

/-- C3 counterexample: with `reuse_cycle_days = 0` every trailing window
`pours[max(0, i - R + 1) : i + 1] = pours[i + 1 : i + 1]` is empty, so
on `pours = [5]` with unlimited reuse the optimizer returns 0, not the
maximum single-day pour count 5. -/
theorem c3_counterexample :
    (mkOptResult [5] 0 (-1) 100 100 .optimal).requiredSetsField
      ≠ maxSingleDay [5] := by
  show requiredSets .optimal [5] 0 (-1) ≠ maxSingleDay [5]
  rw [requiredSets_optimal_eq]
  decide

/-- C3 amended: when `reuse_cycle_days = 0` every trailing window is
empty, so `Required_Sets` equals the lifetime lower bound —
`ceil(total / K)` when `K` is set, 0 otherwise — not the maximum
single-day pour count. -/
theorem c3_zero_cycle_required_sets (pours : List Nat) (K : Int)
    (c rep : ℚ) :
    (mkOptResult pours 0 K c rep .optimal).requiredSetsField
      = lifeLimitLB pours.sum K := by
  show requiredSets .optimal pours 0 K = _
  rw [requiredSets_optimal_eq]
  have h : slidingWindowMax pours 0 = 0 := by
    unfold slidingWindowMax
    apply foldl_max_eq_init
    intro s hs
    obtain ⟨i, _, rfl⟩ := List.mem_map.mp hs
    rw [windowSum_R_zero]
  rw [h]
  exact max_eq_right (Nat.zero_le _)

/-- C4: for every pour sequence and every result row, under every solver
outcome, `Required_Sets ≤ Naive_Sets`, and `Naive_Sets` is the pair's
total pour count. -/
theorem c4_required_le_naive (o : SolverOutcome) (pours : List Nat)
    (R : Nat) (K : Int) (c rep : ℚ) :
    (mkOptResult pours R K c rep o).requiredSetsField
        ≤ (mkOptResult pours R K c rep o).naiveSets ∧
      (mkOptResult pours R K c rep o).naiveSets = pours.sum := by
  exact ⟨requiredSets_le_sum o pours R K, rfl⟩

/-- C5: with total pour count `T`, the lifecycle accountant writes off
`floor(T / K)` sets when `K` is set (0 otherwise), prices the write-off
at `Sets_Written_Off × replacement_cost_per_set`, and reports
`True_Total_Cost = optimized procurement cost + Write_Off_Cost`; when
`K` is unset the write-off count and cost are zero and the true total
cost is exactly the optimized procurement cost. -/
theorem c5_lifecycle_accounting (pours : List Nat) (R : Nat) (K : Int)
    (c rep : ℚ) (o : SolverOutcome) :
    (mkOptResult pours R K c rep o).setsWrittenOff
        = (if 0 < K then pours.sum / K.toNat else 0) ∧
      (mkOptResult pours R K c rep o).writeOffCost
        = ((mkOptResult pours R K c rep o).setsWrittenOff : ℚ) * rep ∧
      (mkOptResult pours R K c rep o).trueTotalCost
        = (mkOptResult pours R K c rep o).optCost
          + (mkOptResult pours R K c rep o).writeOffCost ∧
      (¬ 0 < K →
        (mkOptResult pours R K c rep o).setsWrittenOff = 0 ∧
        (mkOptResult pours R K c rep o).writeOffCost = 0 ∧
        (mkOptResult pours R K c rep o).trueTotalCost
          = (mkOptResult pours R K c rep o).optCost) := by
  refine ⟨rfl, rfl, rfl, fun hK => ?_⟩
  have h0 : (mkOptResult pours R K c rep o).setsWrittenOff = 0 := by
    show (if 0 < K then pours.sum / K.toNat else 0) = 0
    rw [if_neg hK]
  have h1 : (mkOptResult pours R K c rep o).writeOffCost = 0 := by
    show ((if 0 < K then pours.sum / K.toNat else 0 : Nat) : ℚ) * rep = 0
    rw [if_neg hK]
    simp
  refine ⟨h0, h1, ?_⟩
  show (mkOptResult pours R K c rep o).optCost
      + (mkOptResult pours R K c rep o).writeOffCost = _
  rw [h1, add_zero]

/-- C5 witness: with unlimited reuse (`K = -1`) the write-off count and
cost vanish and the true total cost is the optimized cost. -/
theorem c5_lifecycle_accounting_witness :
    (mkOptResult [1, 1, 1] 7 (-1) 100 80 .optimal).setsWrittenOff = 0 ∧
      (mkOptResult [1, 1, 1] 7 (-1) 100 80 .optimal).writeOffCost = 0 ∧
      (mkOptResult [1, 1, 1] 7 (-1) 100 80 .optimal).trueTotalCost
        = (mkOptResult [1, 1, 1] 7 (-1) 100 80 .optimal).optCost :=
  (c5_lifecycle_accounting [1, 1, 1] 7 (-1) 100 80 .optimal).2.2.2 (by decide)

/-- C7: every procurement row has `order_by_date = first_pour_date −
lead_time_days` and `days_until_order = order_by_date − today` (signed),
and its status is Urgent exactly when `days_until_order < 0`, Order Soon
exactly when `0 ≤ days_until_order ≤ lead_time_days`, and Planned
otherwise. -/
theorem c7_procurement_timing (cluster zone : String) (sets : Nat)
    (cost : ℚ) (firstPour today L : Int) :
    (mkSchedRecord cluster zone sets cost firstPour today L).orderBy
        = firstPour - L ∧
      (mkSchedRecord cluster zone sets cost firstPour today L).daysUntilOrder
        = firstPour - L - today ∧
      ((mkSchedRecord cluster zone sets cost firstPour today L).status
          = .urgent ↔ firstPour - L - today < 0) ∧
      ((mkSchedRecord cluster zone sets cost firstPour today L).status
          = .orderSoon ↔
        0 ≤ firstPour - L - today ∧ firstPour - L - today ≤ L) ∧
      ((mkSchedRecord cluster zone sets cost firstPour today L).status
          = .planned ↔
        0 ≤ firstPour - L - today ∧ L < firstPour - L - today) := by
  refine ⟨rfl, rfl, ?_, ?_, ?_⟩ <;>
    show procStatus (firstPour - L - today) L = _ ↔ _ <;>
    unfold procStatus <;>
    split_ifs with h1 h2 <;>
    simp <;>
    omega

/-- C8: the percentage reduction is `(naive − optimized) / naive × 100`
when the naive cost is positive, and is defined to be 0 when the naive
cost is 0 — the guard of `optimization_engine.py` line 126, so the
division by a zero naive cost is never evaluated. -/
theorem c8_cost_reduction_guard (pours : List Nat) (R : Nat) (K : Int)
    (c rep : ℚ) (o : SolverOutcome) :
    (0 < (mkOptResult pours R K c rep o).naiveCost →
      (mkOptResult pours R K c rep o).costReductionPct
        = ((mkOptResult pours R K c rep o).naiveCost
            - (mkOptResult pours R K c rep o).optCost)
          / (mkOptResult pours R K c rep o).naiveCost * 100) ∧
    ((mkOptResult pours R K c rep o).naiveCost = 0 →
      (mkOptResult pours R K c rep o).costReductionPct = 0) := by
  constructor
  · intro h
    have h' : 0 < ((pours.sum : ℚ) * c) := h
    show (if 0 < ((pours.sum : ℚ) * c) then
        (((pours.sum : ℚ) * c) - ((requiredSets o pours R K : ℚ) * c))
          / ((pours.sum : ℚ) * c) * 100 else 0) = _
    rw [if_pos h']
    rfl
  · intro h
    show (if 0 < ((pours.sum : ℚ) * c) then
        (((pours.sum : ℚ) * c) - ((requiredSets o pours R K : ℚ) * c))
          / ((pours.sum : ℚ) * c) * 100 else 0) = 0
    have h0 : ¬ 0 < ((pours.sum : ℚ) * c) := by
      rw [show ((pours.sum : ℚ) * c)
          = (mkOptResult pours R K c rep o).naiveCost from rfl, h]
      exact lt_irrefl 0
    rw [if_neg h0]

/-- C8 witness: an empty pour sequence has naive cost 0 and the
percentage reduction is 0, with no division-by-zero error. -/
theorem c8_cost_reduction_guard_witness :
    (mkOptResult [] 7 (-1) 5 5 .exc).costReductionPct = 0 :=
  (c8_cost_reduction_guard [] 7 (-1) 5 5 .exc).2 (by simp [mkOptResult])

/-- C6: for every nonempty date list of a (cluster, zone) pair, the
demand series is a dense day-indexed array covering exactly
`[min date, max date]` inclusive whose entry for each day is the number
of elements cast that day (so days of zero demand are explicit zeros),
and a pair with a single element yields the one-day series `[1]`. -/
theorem c6_demand_series_dense :
    (∀ dates : List Int, dates ≠ [] →
      (demandSeries dates).length
          = (listMaxInt dates - listMinInt dates + 1).toNat ∧
        ∀ j, j < (demandSeries dates).length →
          (demandSeries dates).getD j 0
            = dates.count (listMinInt dates + j)) ∧
      (∀ d : Int, demandSeries [d] = [1]) :=
  ⟨fun dates _ =>
    ⟨demandSeries_length dates, fun j hj => demandSeries_entry dates j hj⟩,
    demandSeries_singleton⟩

/-- C6 witness: the pair with cast dates {5, 3} yields a three-day
series, and its middle day (day 4, no pours) holds the count 0. -/
theorem c6_demand_series_dense_witness :
    (demandSeries [(5 : Int), 3]).length = 3 ∧
      (demandSeries [(5 : Int), 3]).getD 1 0
        = [(5 : Int), 3].count (listMinInt [(5 : Int), 3] + 1) := by
  refine ⟨?_, ?_⟩
  · exact ((c6_demand_series_dense.1 [5, 3] (by decide)).1).trans (by decide)
  · exact (c6_demand_series_dense.1 [5, 3] (by decide)).2 1 (by decide)

/-- `hq` extends `hp` without touching any cell below `hp.length`. -/
def extendsBelow {α : Type} (hp hq : List α) : Prop :=
  ∀ i, i < hp.length → hq[i]? = hp[i]?

lemma extendsBelow_refl {α : Type} (hp : List α) : extendsBelow hp hp :=
  fun _ _ => rfl

lemma extendsBelow_append {α : Type} {hp hq : List α}
    (h : extendsBelow hp hq) (l : List α) : extendsBelow hp (hq ++ l) := by
  intro i hi
  have hlt : i < hq.length := by
    by_contra hc
    push_neg at hc
    have h1 : hq[i]? = none := List.getElem?_eq_none hc
    rw [h i hi, List.getElem?_eq_getElem hi] at h1
    cases h1
  rw [List.getElem?_append_left hlt, h i hi]

lemma extendsBelow_set {α : Type} {hp hq : List α} {c : Nat}
    (h : extendsBelow hp hq) (hc : hp.length ≤ c) (v : α) :
    extendsBelow hp (hq.set c v) := by
  intro i hi
  rw [List.getElem?_set_ne (by omega : c ≠ i), h i hi]

lemma readH_extendsBelow {α : Type} [Inhabited α] {hp hq : List α}
    {r : Nat} (h : extendsBelow hp hq) (hr : r < hp.length) :
    readH hq r = readH hp r := by
  unfold readH
  rw [List.getD_eq_getElem?_getD, List.getD_eq_getElem?_getD, h r hr]

/-- C9: each core entry point (optimization, cluster building,
procurement scheduling) leaves the caller's element frame untouched: for
every heap and every cell holding the input, the cell's content after
the traced run equals its content before, whatever the column transforms
do — outputs live in freshly allocated cells only. -/
theorem c9_core_preserves_input (α : Type) [Inhabited α]
    (toDt addZone summarize assignIds : α → α) (mergeIds : α → α → α)
    (hasZone : Bool) (hp : List α) (r : Nat) (hr : r < hp.length) :
    readH (optimizeTrace toDt addZone hp r) r = readH hp r ∧
      readH (repetitionTrace summarize assignIds mergeIds hp r) r
        = readH hp r ∧
      readH (schedulerTrace toDt addZone hasZone hp r) r = readH hp r := by
  refine ⟨?_, ?_, ?_⟩
  · exact readH_extendsBelow
      (extendsBelow_set
        (extendsBelow_set (extendsBelow_append (extendsBelow_refl hp) _)
          (le_refl _) _)
        (le_refl _) _) hr
  · exact readH_extendsBelow
      (extendsBelow_append
        (extendsBelow_set
          (extendsBelow_append
            (extendsBelow_append (extendsBelow_refl hp) _) _)
          (by simp) _) _) hr
  · cases hasZone with
    | false =>
      exact readH_extendsBelow
        (extendsBelow_set
          (extendsBelow_set (extendsBelow_append (extendsBelow_refl hp) _)
            (le_refl _) _)
          (le_refl _) _) hr
    | true =>
      exact readH_extendsBelow
        (extendsBelow_set (extendsBelow_append (extendsBelow_refl hp) _)
          (le_refl _) _) hr

/-- C9 witness: a one-cell heap holding the input frame is unchanged by
all three traced runs. -/
theorem c9_core_preserves_input_witness :
    readH (optimizeTrace id id [0] 0) 0 = readH [(0 : Nat)] 0 ∧
      readH (repetitionTrace id id (fun a _ => a) [0] 0) 0
        = readH [(0 : Nat)] 0 ∧
      readH (schedulerTrace id id true [0] 0) 0 = readH [(0 : Nat)] 0 :=
  c9_core_preserves_input Nat id id id id (fun a _ => a) true [0] 0
    (by decide)

/-- C10 counterexample: an optimization row whose (cluster, zone)
matches no element is skipped, but when every row is skipped the record
list is empty and the status-sorting step of
`procurement_scheduler.py` line 90 accesses the `Status` column of an
empty, column-less frame, raising a `KeyError` — the failure is not
silent for this input. -/
theorem c10_counterexample :
    generateSchedule [⟨"CL-001", "All", 3, 100⟩] [] 0 5
      = Except.error "KeyError: Status" := rfl

/-- C10 amended: an optimization row whose (cluster, zone) matches no
element is silently omitted — the schedule equals the one computed
without that row — except that when no row at all produces a record the
final sorting step raises a `KeyError` instead of returning an empty
schedule. -/
theorem c10_unmatched_row_skipped (r : OptRow) (rest : List OptRow)
    (els : List Elem) (today L : Int)
    (h : matchingElems els r.cluster r.zone = []) :
    generateSchedule (r :: rest) els today L
      = generateSchedule rest els today L := by
  have hf : buildRecords (r :: rest) els today L
      = buildRecords rest els today L := by
    unfold buildRecords
    refine List.filterMap_cons_none ?_
    rw [h]
    rfl
  unfold generateSchedule
  rw [hf]

/-- C10 witness: dropping a single unmatched row leaves the schedule
computation identical to running without it. -/
theorem c10_unmatched_row_skipped_witness :
    generateSchedule [⟨"X", "All", 1, 0⟩] [] 0 5
      = generateSchedule [] [] 0 5 :=
  c10_unmatched_row_skipped ⟨"X", "All", 1, 0⟩ [] [] 0 5 rfl

end SmartForm
